import Mathlib

/-!
# Verification of the support-ticket tracker core

Shallow embedding of the Authorization & Ticket-Lifecycle engine of the
`system_tickets` repository: the relational store (`src/src/db.js` schema),
the permission/role repository (`PermissionRepository` in
`src/src/models/tickets.js`), the ticket repository
(`src/src/repositories/TicketRepository.js`), the notification repository
(`src/src/repositories/NotificationRepository.js`), and the service layer
(`ticketService.js`, `roleService.js`) together with the relevant route
handlers (`src/src/routes/admin.js`, `src/src/routes/public.js`).

Tables become lists of rows; SQL queries become list traversals; the
PostgreSQL transaction wrapper `BaseRepository.withTransaction`
(BEGIN / COMMIT / ROLLBACK) becomes a combinator that discards the partial
state on error.  Thrown JS errors become values of an explicit error type:
the repository classes `ValidationError` / `NotFoundError` /
`ForbiddenError` from `middleware/errorHandler.js` map to the
correspondingly named constructors, and plain `Error` throws are mapped by
the kind of failure they report (the spec's §7 taxonomy is explicitly
"kinds, not concrete types"): `Error('No se puede eliminar un rol que
tiene usuarios asignados')` is the conflict kind, other plain throws are
`dbError`.
-/

namespace TicketSystem

/-- Row of `users`: `id SERIAL, username TEXT UNIQUE, password_hash,
role TEXT CHECK (role IN ('admin','supervisor','tecnico','user')),
role_id INTEGER REFERENCES roles(id)` (the legacy text column `role` and
the newer `role_id` FK coexist in the schema; notification fan-out uses
`role`, permission checks use `role_id`). -/
structure User where
  id : Nat
  username : String
  role : String
  role_id : Option Nat
  deriving DecidableEq, Repr

/-- Row of `roles`: `id SERIAL, name TEXT UNIQUE, display_name, description,
is_system BOOLEAN`. -/
structure Role where
  id : Nat
  name : String
  display_name : String
  description : Option String
  is_system : Bool
  deriving DecidableEq, Repr

/-- Row of `permissions`: `id SERIAL, name TEXT UNIQUE, display_name,
description, category`. -/
structure Permission where
  id : Nat
  name : String
  display_name : String
  description : Option String
  category : String
  deriving DecidableEq, Repr

/-- Row of `role_permissions`: `role_id REFERENCES roles(id) ON DELETE
CASCADE, permission_id REFERENCES permissions(id) ON DELETE CASCADE,
PRIMARY KEY (role_id, permission_id)`. -/
structure RolePermission where
  role_id : Nat
  permission_id : Nat
  deriving DecidableEq, Repr

/-- Row of `tickets` (timestamps abstracted to `Nat` ticks). -/
structure Ticket where
  id : Nat
  reference : String
  requester_name : String
  department : String
  support_type : String
  priority : String
  subject : String
  description : String
  image_path : Option String
  has_anydesk : Bool
  anydesk_code : Option String
  status : String
  edit_token : String
  assigned_to : Option Nat
  created_at : Nat
  updated_at : Nat
  deriving DecidableEq, Repr

/-- Row of `notifications`: created by `NotificationRepository.create` with
`is_read = false`. -/
structure Notification where
  id : Nat
  user_id : Nat
  type : String
  title : String
  message : String
  ticket_id : Option Nat
  is_read : Bool
  deriving DecidableEq, Repr

/-- The relational store.  `next…Id` model the SERIAL sequences. -/
structure DB where
  users : List User
  roles : List Role
  permissions : List Permission
  role_permissions : List RolePermission
  tickets : List Ticket
  notifications : List Notification
  nextRoleId : Nat
  nextTicketId : Nat
  nextNotifId : Nat
  deriving DecidableEq, Repr

/-- Error kinds thrown by the repositories / services / routes
(`middleware/errorHandler.js` classes, plus plain `Error` throws mapped by
kind; `validation` also covers the routes' 400 responses produced by a
failed zod validation). -/
inductive Err where
  | validation (msg : String)
  | notFound (resource : String)
  | forbidden (msg : String)
  | conflict (msg : String)
  | dbError (msg : String)
  deriving DecidableEq, Repr

/-- `true` exactly for the `conflict` kind. -/
def Err.isConflict : Err → Bool
  | .conflict _ => true
  | _ => false

/-! ## AuthorizationEngine (`PermissionRepository`, `models/tickets.js`) -/

/-- `PermissionRepository.userHasPermission` (src/src/models/tickets.js
lines 189–201): `SELECT EXISTS (SELECT 1 FROM permissions p INNER JOIN
role_permissions rp ON p.id = rp.permission_id INNER JOIN users u ON
u.role_id = rp.role_id WHERE u.id = $1 AND p.name = $2)`. -/
def userHasPermission (db : DB) (userId : Nat) (permissionName : String) : Bool :=
  db.permissions.any fun p =>
    p.name == permissionName &&
    db.role_permissions.any fun rp =>
      rp.permission_id == p.id &&
      db.users.any fun u => u.role_id == some rp.role_id && u.id == userId

/-- The permission set of a role, as read back by
`PermissionRepository.getRoleById`: `SELECT p.name … FROM permissions p
INNER JOIN role_permissions rp ON p.id = rp.permission_id WHERE
rp.role_id = $1` (names only; ordering is irrelevant for membership). -/
def rolePermissionNames (db : DB) (roleId : Nat) : List String :=
  (db.permissions.filter fun p =>
    db.role_permissions.any fun rp =>
      rp.permission_id == p.id && rp.role_id == roleId).map (·.name)

/-- The list of permission ids currently linked to a role in
`role_permissions`. -/
def rolePermissionIds (db : DB) (roleId : Nat) : List Nat :=
  (db.role_permissions.filter fun rp => rp.role_id == roleId).map
    (·.permission_id)

/-! ## NotificationRepository (`src/src/repositories/NotificationRepository.js`) -/

/-- `NotificationRepository.create`: `INSERT INTO notifications (user_id,
type, title, message, ticket_id) VALUES … RETURNING *` (`is_read` defaults
to `false`, `id` comes from the SERIAL sequence). -/
def notificationCreate (db : DB) (user_id : Nat) (ty title message : String)
    (ticket_id : Option Nat) : DB :=
  { db with
    notifications := db.notifications ++
      [{ id := db.nextNotifId, user_id := user_id, type := ty,
         title := title, message := message, ticket_id := ticket_id,
         is_read := false }]
    nextNotifId := db.nextNotifId + 1 }

/-- `NotificationRepository.findUsersByRoles`: `SELECT id FROM users WHERE
role = ANY($1)` (role-name targeting on the legacy text column). -/
def findUsersByRoles (db : DB) (roles : List String) : List User :=
  db.users.filter fun u => roles.contains u.role

/-- `NotificationRepository.markAsRead` (lines 78–83): `UPDATE
notifications SET is_read = true WHERE id = $1 AND user_id = $2`. -/
def markAsRead (db : DB) (notificationId userId : Nat) : DB :=
  { db with
    notifications := db.notifications.map fun n =>
      if n.id == notificationId && n.user_id == userId then
        { n with is_read := true }
      else n }

/-- `NotificationRepository.markAllAsRead` (lines 89–94): `UPDATE
notifications SET is_read = true WHERE user_id = $1 AND is_read = false`. -/
def markAllAsRead (db : DB) (userId : Nat) : DB :=
  { db with
    notifications := db.notifications.map fun n =>
      if n.user_id == userId && n.is_read == false then
        { n with is_read := true }
      else n }

/-! ## TicketRepository (`src/src/repositories/TicketRepository.js`) -/

/-- The four ticket statuses (`STATUSES` in `TicketRepository.js` and
`models/tickets.js`). -/
def STATUSES : List String := ["Pendiente", "En Proceso", "Resuelto", "Cerrado"]

/-- The priority enumeration (`PRIORITIES`). -/
def PRIORITIES : List String :=
  ["Baja – No es urgente", "Media – Puede esperar unas horas",
   "Alta – Necesito ayuda pronto", "Crítica – Bloquea mi trabajo"]

/-- Data accepted by `createTicketSchema` for ticket creation (the
relevant subset; `image_path` is attached by the route from the upload). -/
structure TicketData where
  requester_name : String
  department : String
  support_type : String
  priority : String
  subject : String
  description : String
  image_path : Option String
  has_anydesk : Bool
  anydesk_code : Option String
  deriving DecidableEq, Repr

/-- JavaScript truthiness of a nullable integer column (`null` and `0` are
falsy). -/
def optTruthy : Option Nat → Bool
  | none => false
  | some n => n != 0

/-- `TicketRepository.create` (lines 48–76): inserts with
`status = 'Pendiente'`, a generated reference and edit token, and no
`assigned_to` (the column is absent from the INSERT, so it is NULL).  The
generated reference / token are passed in (the generator is an external
collaborator per the spec). -/
def ticketRepoCreate (db : DB) (data : TicketData) (reference editToken : String)
    (now : Nat) : DB × Ticket :=
  let t : Ticket :=
    { id := db.nextTicketId, reference := reference,
      requester_name := data.requester_name, department := data.department,
      support_type := data.support_type, priority := data.priority,
      subject := data.subject, description := data.description,
      image_path := data.image_path, has_anydesk := data.has_anydesk,
      anydesk_code := data.anydesk_code, status := "Pendiente",
      edit_token := editToken, assigned_to := none,
      created_at := now, updated_at := now }
  ({ db with tickets := db.tickets ++ [t], nextTicketId := db.nextTicketId + 1 }, t)

/-- `TicketRepository.updateStatus` (lines 142–148): throws a plain
`Error('Estado inválido')` when the status is not one of the four, before
touching the table; otherwise `UPDATE tickets SET status = $1,
updated_at = NOW() WHERE id = $2`. -/
def ticketRepoUpdateStatus (db : DB) (id : Nat) (status : String) (now : Nat) :
    Except Err DB :=
  if !STATUSES.contains status then
    .error (.dbError "Estado inválido")
  else
    .ok { db with
          tickets := db.tickets.map fun t =>
            if t.id == id then { t with status := status, updated_at := now }
            else t }

/-- `SELECT * FROM tickets WHERE reference = $1` (first match). -/
def findByReference (db : DB) (reference : String) : Option Ticket :=
  db.tickets.find? fun t => t.reference == reference

/-! ## TicketService (`src/src/services/ticketService.js`) -/

/-- `TicketService._notifyNewTicket` (lines 68–82): one `new_ticket`
notification per user whose role name is `admin` or `supervisor`. -/
def notifyNewTicket (db : DB) (t : Ticket) : DB :=
  (findUsersByRoles db ["admin", "supervisor"]).foldl
    (fun d u =>
      notificationCreate d u.id "new_ticket" "🎫 Nuevo ticket creado"
        ("Ticket " ++ t.reference ++ " - " ++ t.subject) (some t.id))
    db

/-- `TicketService._notifyHighPriorityUnassigned` (lines 88–104): guarded
by `ticket.priority === 'Alta' && !ticket.assigned_to` — note the guard
compares against the bare string `'Alta'`, not the enum value
`'Alta – Necesito ayuda pronto'`. -/
def notifyHighPriorityUnassigned (db : DB) (t : Ticket) : DB :=
  if t.priority == "Alta" && !optTruthy t.assigned_to then
    (findUsersByRoles db ["admin", "supervisor"]).foldl
      (fun d u =>
        notificationCreate d u.id "high_priority" "⚠️ Ticket de alta prioridad"
          ("Ticket " ++ t.reference ++ " sin asignar - " ++ t.subject)
          (some t.id))
      db
  else db

/-- `TicketService.createTicket` (lines 42–62): create the row, then
best-effort notifications — `_notifyNewTicket` always, and
`_notifyHighPriorityUnassigned` when `data.priority === 'Alta' ||
data.priority === 'Crítica – Bloquea mi trabajo'`.  (The email step is an
external collaborator and is omitted; notification failures are swallowed
and cannot occur in the pure model.) -/
def createTicket (db : DB) (data : TicketData) (reference editToken : String)
    (now : Nat) : DB × Ticket :=
  let (db1, t) := ticketRepoCreate db data reference editToken now
  let db2 := notifyNewTicket db1 t
  let db3 :=
    if data.priority == "Alta" || data.priority == "Crítica – Bloquea mi trabajo" then
      notifyHighPriorityUnassigned db2 t
    else db2
  (db3, t)

/-- `TicketService._notifyStatusChange` (lines 171–181): only when
`assignedTo` is truthy and the new status is `Resuelto` or `Cerrado`. -/
def notifyStatusChange (db : DB) (ticketId : Nat) (reference newStatus : String)
    (assignedTo : Option Nat) : DB :=
  if optTruthy assignedTo && (newStatus == "Resuelto" || newStatus == "Cerrado") then
    notificationCreate db (assignedTo.getD 0) "status_change"
      "🔄 Estado actualizado"
      ("El ticket " ++ reference ++ " ahora está: " ++ newStatus)
      (some ticketId)
  else db

/-- `TicketService.updateTicketStatus` (lines 154–165): repository update,
then best-effort `_notifyStatusChange`.  A repository throw propagates and
nothing has been written. -/
def updateTicketStatus (db : DB) (ticketId : Nat) (reference newStatus : String)
    (assignedTo : Option Nat) (now : Nat) : DB × Option Err :=
  match ticketRepoUpdateStatus db ticketId newStatus now with
  | .error e => (db, some e)
  | .ok db1 => (notifyStatusChange db1 ticketId reference newStatus assignedTo, none)

/-- Route `POST /admin/tickets/:reference/estado` (`src/src/routes/admin.js`
lines 207–217): resolve the ticket (404 if unknown), validate the body
against `updateStatusSchema` (`z.enum(STATUSES)`) answering 400
`'Estado inválido'` on failure, else call
`updateTicketStatus(ticket.id, ticket.reference, status, ticket.assigned_to)`. -/
def postEstado (db : DB) (reference status : String) (now : Nat) :
    DB × Option Err :=
  match findByReference db reference with
  | none => (db, some (.notFound "Ticket"))
  | some t =>
    if !STATUSES.contains status then
      (db, some (.validation "Estado inválido"))
    else
      updateTicketStatus db t.id t.reference status t.assigned_to now

/-! ## ConsistencyCoordinator (`BaseRepository.withTransaction`,
`src/unnamed/part_017` lines 68–81)

`BEGIN`; run the callback (which mutates the working state step by step and
may stop with an error mid-way, leaving a partial state); `COMMIT` keeps the
callback's final state, `ROLLBACK` discards the partial state and rethrows.
-/

/-- The transaction wrapper: callbacks return their (possibly partial)
working state together with an optional error; on error the original
state is kept (ROLLBACK) and the error propagates. -/
def txRun (db : DB) (callback : DB → DB × Option Err) : DB × Option Err :=
  match callback db with
  | (db', none) => (db', none)
  | (_, some e) => (db, some e)

/-! ## RoleStore (`PermissionRepository`, `src/src/models/tickets.js`) -/

/-- Whether a permission id is present in the catalog (`permissions.id`). -/
def permissionIdExists (db : DB) (pid : Nat) : Bool :=
  db.permissions.any fun p => p.id == pid

/-- One iteration of the `INSERT INTO role_permissions (role_id,
permission_id) VALUES ($1, $2)` loop, applied sequentially.  An insert
fails on the schema's constraints — `permission_id REFERENCES
permissions(id)` and `PRIMARY KEY (role_id, permission_id)` — or when the
injected fault `fail i` fires at step `i` (modelling an interrupted
mid-insert run).  A failure stops the loop, leaving the partial state for
`txRun` to discard. -/
def insertRolePermissions (roleId : Nat) (fail : Nat → Bool) :
    DB → List Nat → Nat → DB × Option Err
  | db, [], _ => (db, none)
  | db, pid :: rest, i =>
    if fail i then
      (db, some (.dbError "fallo simulado"))
    else if !permissionIdExists db pid then
      (db, some (.dbError "role_permissions_permission_id_fkey"))
    else if db.role_permissions.any
        (fun rp => rp.role_id == roleId && rp.permission_id == pid) then
      (db, some (.dbError "role_permissions_pkey"))
    else
      insertRolePermissions roleId fail
        { db with role_permissions :=
            db.role_permissions ++ [{ role_id := roleId, permission_id := pid }] }
        rest (i + 1)

/-- Effect of `INSERT INTO roles (name, display_name, description,
is_system) VALUES ($1, $2, $3, false) RETURNING id`: append the row with
the next SERIAL id and `is_system = false`. -/
def roleRowInserted (db : DB) (name display_name : String)
    (description : Option String) : DB :=
  { db with
    roles := db.roles ++
      [{ id := db.nextRoleId, name := name, display_name := display_name,
         description := description, is_system := false }]
    nextRoleId := db.nextRoleId + 1 }

/-- Transaction body of `PermissionRepository.createRole` (lines 279–300):
the role INSERT (failing on the `roles.name` UNIQUE constraint), then the
permission-link insert loop over the given ids. -/
def createRoleCallback (name display_name : String) (description : Option String)
    (perms : List Nat) (db : DB) : DB × Option Err :=
  if db.roles.any (fun r => r.name == name) then
    (db, some (.dbError "roles_name_key"))
  else
    insertRolePermissions db.nextRoleId (fun _ => false)
      (roleRowInserted db name display_name description) perms 0

/-- `PermissionRepository.createRole`: the callback inside
`withTransaction`. -/
def createRoleModel (db : DB) (name display_name : String)
    (description : Option String) (perms : List Nat) : DB × Option Err :=
  txRun db (createRoleCallback name display_name description perms)

/-- Effect of `UPDATE roles SET display_name = $1, description = $2 WHERE
id = $3`. -/
def roleRowUpdated (db : DB) (roleId : Nat) (display_name : String)
    (description : Option String) : DB :=
  { db with
    roles := db.roles.map fun (r : Role) =>
      if r.id == roleId then
        { r with display_name := display_name, description := description }
      else r }

/-- Effect of `DELETE FROM role_permissions WHERE role_id = $1`. -/
def rolePermsDeleted (db : DB) (roleId : Nat) : DB :=
  { db with
    role_permissions := db.role_permissions.filter fun rp =>
      !(rp.role_id == roleId) }

/-- Transaction body of `PermissionRepository.updateRole` (lines 307–337):
check the role exists (`throw new Error('Rol no encontrado')`), `UPDATE
roles SET display_name, description`, `DELETE FROM role_permissions WHERE
role_id = $1`, then the insert loop (with the injected fault `fail`). -/
def updateRoleCallback (roleId : Nat) (display_name : String)
    (description : Option String) (perms : List Nat) (fail : Nat → Bool)
    (db : DB) : DB × Option Err :=
  match db.roles.find? (fun r => r.id == roleId) with
  | none => (db, some (.dbError "Rol no encontrado"))
  | some _ =>
    insertRolePermissions roleId fail
      (rolePermsDeleted (roleRowUpdated db roleId display_name description) roleId)
      perms 0

/-- `PermissionRepository.updateRole`: the callback inside
`withTransaction`; `fail` injects a failure at the given insert step. -/
def updateRoleModel (db : DB) (roleId : Nat) (display_name : String)
    (description : Option String) (perms : List Nat) (fail : Nat → Bool) :
    DB × Option Err :=
  txRun db (updateRoleCallback roleId display_name description perms fail)

/-- `PermissionRepository.deleteRole` (lines 343–369): lookup (plain
`Error('Rol no encontrado')`), system-role guard (plain `Error`), user
guard (`SELECT COUNT(*) FROM users WHERE role_id = $1`; the throw
`'No se puede eliminar un rol que tiene usuarios asignados'` is the
conflict kind of the spec's taxonomy), then `DELETE FROM roles WHERE
id = $1` which cascades `role_permissions` via `ON DELETE CASCADE`. -/
def permissionRepoDeleteRole (db : DB) (roleId : Nat) : DB × Option Err :=
  match db.roles.find? (fun r => r.id == roleId) with
  | none => (db, some (.dbError "Rol no encontrado"))
  | some r =>
    if r.is_system then
      (db, some (.dbError "No se puede eliminar un rol del sistema"))
    else if (db.users.filter (fun u => u.role_id == some roleId)).length > 0 then
      (db, some (.conflict "No se puede eliminar un rol que tiene usuarios asignados"))
    else
      ({ db with
         roles := db.roles.filter (fun r => !(r.id == roleId))
         role_permissions := db.role_permissions.filter (fun rp =>
           !(rp.role_id == roleId)) }, none)

/-- `RoleService.deleteRole` (`src/src/services/roleService.js` lines
98–110): `getRoleById` → `NotFoundError('Rol')`; `is_system` →
`ForbiddenError('No se puede eliminar un rol del sistema')`; then the
repository delete. -/
def roleServiceDeleteRole (db : DB) (roleId : Nat) : DB × Option Err :=
  match db.roles.find? (fun r => r.id == roleId) with
  | none => (db, some (.notFound "Rol"))
  | some r =>
    if r.is_system then
      (db, some (.forbidden "No se puede eliminar un rol del sistema"))
    else permissionRepoDeleteRole db roleId

/-! ## Anonymous edit-token path (`POST /tickets/:reference/editar`,
`src/src/routes/public.js` lines 107–137) -/

/-- Output type of `updateTicketSchema` (`src/unnamed/part_000` lines
45–54): every field is optional, and `status` / `assigned_to` /
`edit_token` are not among them.  `image_path` is added by the route when
a file was uploaded.  Any payload the public route accepts is a value of
this type. -/
structure UpdatePayload where
  requester_name : Option String
  department : Option String
  support_type : Option String
  priority : Option String
  subject : Option String
  description : Option String
  has_anydesk : Option Bool
  anydesk_code : Option (Option String)
  image_path : Option String
  deriving DecidableEq, Repr

/-- The per-row effect of `TicketRepository.updateByToken` (lines
117–134): `SET key = value` for exactly the keys present in the payload,
plus `updated_at = NOW()`. -/
def applyTicketUpdates (t : Ticket) (p : UpdatePayload) (now : Nat) : Ticket :=
  { t with
    requester_name := p.requester_name.getD t.requester_name
    department := p.department.getD t.department
    support_type := p.support_type.getD t.support_type
    priority := p.priority.getD t.priority
    subject := p.subject.getD t.subject
    description := p.description.getD t.description
    has_anydesk := p.has_anydesk.getD t.has_anydesk
    anydesk_code := p.anydesk_code.getD t.anydesk_code
    image_path :=
      match p.image_path with
      | some ip => some ip
      | none => t.image_path
    updated_at := now }

/-- `TicketRepository.updateByToken`: `UPDATE tickets SET … WHERE
edit_token = $1`. -/
def updateByToken (db : DB) (editToken : String) (p : UpdatePayload)
    (now : Nat) : DB :=
  { db with
    tickets := db.tickets.map fun t =>
      if t.edit_token == editToken then applyTicketUpdates t p now else t }

/-! ## Observation helpers and concrete sample stores -/

/-- Number of notification rows of a given type. -/
def countType (db : DB) (ty : String) : Nat :=
  (db.notifications.filter fun n => n.type == ty).length

/-- The `status_change` notification rows. -/
def statusChangeNotifs (db : DB) : List Notification :=
  db.notifications.filter fun n => n.type == "status_change"

/-- An empty store with all SERIAL sequences at 1. -/
def emptyDB : DB :=
  { users := [], roles := [], permissions := [], role_permissions := [],
    tickets := [], notifications := [], nextRoleId := 1, nextTicketId := 1,
    nextNotifId := 1 }

/-- Store with one admin, one supervisor and one technician. -/
def dbStaff : DB :=
  { emptyDB with
    users :=
      [{ id := 1, username := "ana", role := "admin", role_id := some 1 },
       { id := 2, username := "sofia", role := "supervisor", role_id := some 2 },
       { id := 3, username := "teo", role := "tecnico", role_id := some 3 }] }

/-- A top-tier-priority, unassigned ticket submission. -/
def criticaData : TicketData :=
  { requester_name := "Luis", department := "Ventas",
    support_type := "Hardware", priority := "Crítica – Bloquea mi trabajo",
    subject := "PC no enciende", description := "El equipo no da video.",
    image_path := none, has_anydesk := false, anydesk_code := none }

/-- Small RBAC store: permission 100 `view_tickets` granted to role 10,
user 1 holds role 10. -/
def dbRBAC : DB :=
  { emptyDB with
    users := [{ id := 1, username := "ana", role := "admin", role_id := some 10 }],
    roles := [{ id := 10, name := "admin", display_name := "Admin",
                description := none, is_system := true }],
    permissions := [{ id := 100, name := "view_tickets",
                      display_name := "Ver tickets", description := none,
                      category := "tickets" }],
    role_permissions := [{ role_id := 10, permission_id := 100 }] }

/-- Store with a single pending ticket. -/
def dbOneTicket : DB :=
  { emptyDB with
    tickets :=
      [{ id := 1, reference := "T-250101-AAAA", requester_name := "Luis",
         department := "Ventas", support_type := "Hardware",
         priority := "Baja – No es urgente", subject := "PC no enciende",
         description := "El equipo no da video.", image_path := none,
         has_anydesk := false, anydesk_code := none, status := "Pendiente",
         edit_token := "tok-1", assigned_to := none, created_at := 0,
         updated_at := 0 }],
    nextTicketId := 2 }

/-- Store for the role-replacement witness: custom role 1 currently linked
to permission 7; catalog holds permissions 7 and 8. -/
def dbRoleUpd : DB :=
  { emptyDB with
    roles := [{ id := 1, name := "auditor", display_name := "Auditor",
                description := none, is_system := false }],
    permissions :=
      [{ id := 7, name := "view_tickets", display_name := "Ver tickets",
         description := none, category := "tickets" },
       { id := 8, name := "view_statistics", display_name := "Ver estadísticas",
         description := none, category := "statistics" }],
    role_permissions := [{ role_id := 1, permission_id := 7 }],
    nextRoleId := 2 }

/-- Store whose permission catalog holds only id 1 (id 999 is invalid). -/
def dbCatalogOne : DB :=
  { emptyDB with
    permissions := [{ id := 1, name := "view_tickets",
                      display_name := "Ver tickets", description := none,
                      category := "tickets" }] }

/-- Store with the seeded system role `admin` (id 1) still referenced by a
user, and a deletable custom role (id 2) also referenced by a user, plus a
user-free custom role (id 3) with a permission link. -/
def dbRoles : DB :=
  { emptyDB with
    users :=
      [{ id := 1, username := "ana", role := "admin", role_id := some 1 },
       { id := 2, username := "bea", role := "user", role_id := some 2 }],
    roles :=
      [{ id := 1, name := "admin", display_name := "Administrador",
         description := none, is_system := true },
       { id := 2, name := "auditor", display_name := "Auditor",
         description := none, is_system := false },
       { id := 3, name := "invitado", display_name := "Invitado",
         description := none, is_system := false }],
    permissions := [{ id := 7, name := "view_tickets",
                      display_name := "Ver tickets", description := none,
                      category := "tickets" }],
    role_permissions :=
      [{ role_id := 1, permission_id := 7 },
       { role_id := 3, permission_id := 7 }],
    nextRoleId := 4 }

/-! ## Theorems -/

/-- C2: `hasPermission(u, p)` is true iff `p` is in the permission set of
`u`'s assigned role (as read back by `getRoleById`) in the current store
state — the check is a live lookup, a pure function of the store, so a
change to the role's permission set changes the next call — and for a user
id not present in the store it returns `false` rather than throwing. -/
theorem hasPermission_iff_role_set (db : DB) (userId : Nat) (p : String) :
    (userHasPermission db userId p = true ↔
      ∃ u ∈ db.users, u.id = userId ∧
        ∃ rid, u.role_id = some rid ∧ p ∈ rolePermissionNames db rid) ∧
    ((∀ u ∈ db.users, u.id ≠ userId) → userHasPermission db userId p = false) := by
  constructor
  · simp only [userHasPermission, rolePermissionNames, List.any_eq_true,
      Bool.and_eq_true, beq_iff_eq, List.mem_filter, List.mem_map]
    constructor
    · rintro ⟨pm, hpm, hname, rp, hrp, hpid, u, hu, hrole, huid⟩
      exact ⟨u, hu, huid, rp.role_id, hrole,
        ⟨pm, ⟨hpm, rp, hrp, ⟨hpid, rfl⟩⟩, hname⟩⟩
    · rintro ⟨u, hu, huid, rid, hrole, pm, ⟨hpm, rp, hrp, hpid, hrid⟩, hname⟩
      exact ⟨pm, hpm, hname, rp, hrp, hpid, u, hu, hrid ▸ hrole, huid⟩
  · intro h
    rcases hb : userHasPermission db userId p with _ | _
    · rfl
    · exfalso
      simp only [userHasPermission, List.any_eq_true, Bool.and_eq_true,
        beq_iff_eq] at hb
      obtain ⟨pm, hpm, hname, rp, hrp, hpid, u, hu, hrole, huid⟩ := hb
      exact h u hu huid

/-- Witness for C2 at a concrete store: user 1 (role 10, which grants
`view_tickets`) passes the check; unknown user 2 gets `false`. -/
theorem hasPermission_iff_role_set_witness :
    userHasPermission dbRBAC 1 "view_tickets" = true ∧
    userHasPermission dbRBAC 2 "view_tickets" = false := by
  constructor
  · exact (hasPermission_iff_role_set dbRBAC 1 "view_tickets").1.mpr
      ⟨{ id := 1, username := "ana", role := "admin", role_id := some 10 },
        by decide, rfl, 10, rfl, by decide⟩
  · exact (hasPermission_iff_role_set dbRBAC 2 "view_tickets").2 (by decide)

/-- C7: for every role with `is_system = true`, `deleteRole` fails with a
`ForbiddenError` and returns with the store untouched (role and permission
links intact). -/
theorem deleteRole_system_forbidden (db : DB) (roleId : Nat) (r : Role)
    (hfind : db.roles.find? (fun x => x.id == roleId) = some r)
    (hsys : r.is_system = true) :
    roleServiceDeleteRole db roleId =
      (db, some (.forbidden "No se puede eliminar un rol del sistema")) := by
  simp [roleServiceDeleteRole, hfind, hsys]

/-- Witness for C7: deleting the seeded system role `admin` in `dbRoles`. -/
theorem deleteRole_system_forbidden_witness :
    roleServiceDeleteRole dbRoles 1 =
      (dbRoles, some (.forbidden "No se puede eliminar un rol del sistema")) :=
  deleteRole_system_forbidden dbRoles 1
    { id := 1, name := "admin", display_name := "Administrador",
      description := none, is_system := true } (by decide) rfl

/-- Counterexample to C6 as stated: in `dbRoles`, role 1 is referenced by
user 1, yet `deleteRole(1)` fails with the forbidden kind (it is a system
role), not the conflict kind. -/
theorem deleteRole_conflict_cex :
    (dbRoles.users.filter (fun u => u.role_id == some 1)).length > 0 ∧
    (roleServiceDeleteRole dbRoles 1).2 =
      some (.forbidden "No se puede eliminar un rol del sistema") ∧
    Err.isConflict (.forbidden "No se puede eliminar un rol del sistema") = false := by
  refine ⟨by decide, by decide, by decide⟩

/-- All `role_permissions` rows of the filtered-out role are gone: filtering
by a predicate and then by its negation yields the empty list. -/
theorem filter_not_filter {α : Type} (p : α → Bool) (l : List α) :
    ((l.filter fun a => !p a).filter fun a => p a) = [] := by
  induction l with
  | nil => rfl
  | cons a t ih =>
    by_cases h : p a = true
    · simp [h, ih]
    · simp only [Bool.not_eq_true] at h
      simp [h, ih]

/-- C6 (amended to non-system roles): for every non-system role, if at
least one user references it, `deleteRole` fails with the conflict kind
and deletes nothing; with no referencing users it succeeds, removing the
role and every `role_permissions` row of the role. -/
theorem deleteRole_users_conflict (db : DB) (roleId : Nat) (r : Role)
    (hfind : db.roles.find? (fun x => x.id == roleId) = some r)
    (hsys : r.is_system = false) :
    ((db.users.filter (fun u => u.role_id == some roleId)).length > 0 →
      roleServiceDeleteRole db roleId =
        (db, some (.conflict "No se puede eliminar un rol que tiene usuarios asignados"))) ∧
    ((db.users.filter (fun u => u.role_id == some roleId)).length = 0 →
      (roleServiceDeleteRole db roleId).2 = none ∧
      ((roleServiceDeleteRole db roleId).1.roles.all fun x => !(x.id == roleId)) = true ∧
      rolePermissionIds (roleServiceDeleteRole db roleId).1 roleId = []) := by
  constructor
  · intro h
    simp [roleServiceDeleteRole, permissionRepoDeleteRole, hfind, hsys, h]
  · intro h
    have h' : ¬ (db.users.filter (fun u => u.role_id == some roleId)).length > 0 := by
      omega
    refine ⟨by simp [roleServiceDeleteRole, permissionRepoDeleteRole, hfind, hsys, h'],
      ?_, ?_⟩
    · simp only [roleServiceDeleteRole, permissionRepoDeleteRole, hfind, hsys,
        if_neg h']
      simp [List.all_eq_true, List.mem_filter]
    · simp only [roleServiceDeleteRole, permissionRepoDeleteRole, hfind, hsys,
        if_neg h']
      simp [rolePermissionIds, filter_not_filter]

/-- Witness for the amended C6: deleting custom role 2 of `dbRoles`
(referenced by user 2) reports the conflict kind and leaves the store
unchanged. -/
theorem deleteRole_users_conflict_witness :
    roleServiceDeleteRole dbRoles 2 =
      (dbRoles, some (.conflict "No se puede eliminar un rol que tiene usuarios asignados")) :=
  (deleteRole_users_conflict dbRoles 2
    { id := 2, name := "auditor", display_name := "Auditor",
      description := none, is_system := false } (by decide) rfl).1 (by decide)

/-- C3: changing a ticket's status to any string outside the four-value
enumeration is rejected by the status route with the validation kind (the
zod `updateStatusSchema` check answers 400 before the service runs) and
the store — in particular the ticket — is returned unchanged. -/
theorem changeStatus_invalid_validation (db : DB) (reference s : String)
    (now : Nat) (t : Ticket) (hfind : findByReference db reference = some t)
    (hs : s ∉ STATUSES) :
    postEstado db reference s now = (db, some (.validation "Estado inválido")) := by
  simp [postEstado, hfind, hs]

/-- Witness for C3: `"InvalidStatus"` against the one-ticket store. -/
theorem changeStatus_invalid_validation_witness :
    postEstado dbOneTicket "T-250101-AAAA" "InvalidStatus" 5 =
      (dbOneTicket, some (.validation "Estado inválido")) :=
  changeStatus_invalid_validation dbOneTicket "T-250101-AAAA" "InvalidStatus" 5
    (dbOneTicket.tickets.head (by decide)) (by decide) (by decide)

/-- C8: whatever payload the public edit-token route accepts (any value of
the `updateTicketSchema` output type, plus the optional uploaded image),
every ticket in the store keeps its `status`, `assigned_to` and
`edit_token` — the anonymous path cannot change status or assignment. -/
theorem editToken_frame (db : DB) (tok : String) (p : UpdatePayload) (now : Nat) :
    List.Forall₂
      (fun t t' => t'.status = t.status ∧ t'.assigned_to = t.assigned_to ∧
        t'.edit_token = t.edit_token)
      db.tickets (updateByToken db tok p now).tickets := by
  simp only [updateByToken]
  induction db.tickets with
  | nil => exact .nil
  | cons a l ih =>
    refine List.Forall₂.cons ?_ ih
    by_cases h : a.edit_token == tok
    · simp [h, applyTicketUpdates]
    · simp [h]

/-- C10: `markAsRead(nid, uid)` leaves every notification of any other
user unchanged, and on any row it may touch it never changes `id`,
`user_id`, `type`, `title`, `message` or `ticket_id` — only `is_read`. -/
theorem markAsRead_frame (db : DB) (nid uid : Nat) :
    List.Forall₂
      (fun n n' => (n.user_id ≠ uid → n' = n) ∧ (n.id ≠ nid → n' = n) ∧
        n'.id = n.id ∧ n'.user_id = n.user_id ∧ n'.type = n.type ∧
        n'.title = n.title ∧ n'.message = n.message ∧
        n'.ticket_id = n.ticket_id)
      db.notifications (markAsRead db nid uid).notifications := by
  simp only [markAsRead]
  induction db.notifications with
  | nil => exact .nil
  | cons a l ih =>
    refine List.Forall₂.cons ?_ ih
    by_cases h : (a.id == nid && a.user_id == uid) = true
    · have hid : a.id = nid := eq_of_beq ((Bool.and_eq_true _ _).mp h).1
      have huid : a.user_id = uid := eq_of_beq ((Bool.and_eq_true _ _).mp h).2
      simp [h]
      exact ⟨fun hcon => absurd huid hcon, fun hcon => absurd hid hcon⟩
    · simp [h]

/-- C9: for a valid target status, a status change adds a `status_change`
notification exactly when the ticket has an assignee and the new status is
`Resuelto` or `Cerrado`; in that case it adds exactly one, addressed to the
assignee (and pointing at the ticket); in every other case — e.g.
`Pendiente` → `En Proceso` on an assigned ticket — it adds none.
(`h0` reflects that SERIAL user ids are never 0.) -/
theorem statusChange_narrow (db : DB) (tid : Nat) (ref s : String)
    (ato : Option Nat) (now : Nat) (hs : s ∈ STATUSES) (h0 : ato ≠ some 0) :
    (updateTicketStatus db tid ref s ato now).2 = none ∧
    (statusChangeNotifs (updateTicketStatus db tid ref s ato now).1).length =
      (statusChangeNotifs db).length +
        (if ato.isSome ∧ (s = "Resuelto" ∨ s = "Cerrado") then 1 else 0) ∧
    ∀ n ∈ statusChangeNotifs (updateTicketStatus db tid ref s ato now).1,
      n ∈ statusChangeNotifs db ∨ (some n.user_id = ato ∧ n.ticket_id = some tid) := by
  have hrepo : updateTicketStatus db tid ref s ato now =
      (notifyStatusChange
        { db with tickets := db.tickets.map fun t =>
            if t.id == tid then { t with status := s, updated_at := now } else t }
        tid ref s ato, none) := by
    simp [updateTicketStatus, ticketRepoUpdateStatus, hs]
  rw [hrepo]
  cases ato with
  | none =>
    refine ⟨rfl, by simp [notifyStatusChange, optTruthy, statusChangeNotifs], ?_⟩
    intro n hn
    exact Or.inl (by simpa [notifyStatusChange, optTruthy, statusChangeNotifs] using hn)
  | some uid =>
    have hne : (uid != 0) = true := by
      simp only [bne_iff_ne, ne_eq]
      intro h
      exact h0 (by rw [h])
    by_cases hb : s = "Resuelto" ∨ s = "Cerrado"
    · have hbb : (s == "Resuelto" || s == "Cerrado") = true := by
        rcases hb with h | h <;> simp [h]
      refine ⟨rfl, ?_, ?_⟩
      · simp [notifyStatusChange, optTruthy, hne, hbb, hb, notificationCreate,
          statusChangeNotifs, List.filter_append]
      · intro n hn
        simp only [notifyStatusChange, optTruthy, hne, hbb, Bool.and_self,
          if_true, notificationCreate, statusChangeNotifs,
          List.filter_append] at hn
        rcases List.mem_append.mp hn with hl | hr
        · exact Or.inl hl
        · rcases List.mem_filter.mp hr with ⟨hmem, _⟩
          rcases List.mem_singleton.mp hmem with rfl
          exact Or.inr ⟨rfl, rfl⟩
    · have hbb : (s == "Resuelto" || s == "Cerrado") = false := by
        rcases hb' : s == "Resuelto" with _ | _
        · rcases hc' : s == "Cerrado" with _ | _
          · rfl
          · exact absurd (Or.inr (eq_of_beq hc')) hb
        · exact absurd (Or.inl (eq_of_beq hb')) hb
      refine ⟨rfl, ?_, ?_⟩
      · simp [notifyStatusChange, optTruthy, hne, hbb, hb, statusChangeNotifs]
      · intro n hn
        exact Or.inl
          (by simpa [notifyStatusChange, optTruthy, hne, hbb, statusChangeNotifs]
            using hn)

/-- Witness for C9 at concrete inputs: moving an assigned ticket to
`Resuelto` yields exactly one `status_change` row, addressed to the
assignee. -/
theorem statusChange_narrow_witness :
    (updateTicketStatus dbOneTicket 1 "T-250101-AAAA" "Resuelto" (some 3) 9).2 = none ∧
    (statusChangeNotifs (updateTicketStatus dbOneTicket 1 "T-250101-AAAA" "Resuelto" (some 3) 9).1).length =
      (statusChangeNotifs dbOneTicket).length +
        (if (some 3 : Option Nat).isSome ∧
            (("Resuelto" : String) = "Resuelto" ∨ ("Resuelto" : String) = "Cerrado")
         then 1 else 0) ∧
    ∀ n ∈ statusChangeNotifs (updateTicketStatus dbOneTicket 1 "T-250101-AAAA" "Resuelto" (some 3) 9).1,
      n ∈ statusChangeNotifs dbOneTicket ∨
        (some n.user_id = some 3 ∧ n.ticket_id = some 1) :=
  statusChange_narrow dbOneTicket 1 "T-250101-AAAA" "Resuelto" (some 3) 9
    (by decide) (by decide)

/-- C1 (evaluation at the failing input): creating a ticket with the
top-tier priority `Crítica – Bloquea mi trabajo` and no assignee, in a
store holding one admin and one supervisor, creates one `new_ticket` row
per admin/supervisor recipient but zero `high_priority` rows — the inner
guard of `_notifyHighPriorityUnassigned` compares the priority to the bare
string `'Alta'`, which no enum value equals, although the call site in
`createTicket` explicitly includes the Crítica value. -/
theorem createTicket_critica_no_high_priority :
    countType (createTicket dbStaff criticaData "T-250101-AAAA" "tok" 0).1 "high_priority" = 0 ∧
    countType (createTicket dbStaff criticaData "T-250101-AAAA" "tok" 0).1 "new_ticket" = 2 ∧
    (findUsersByRoles dbStaff ["admin", "supervisor"]).length = 2 := by
  refine ⟨by decide, by decide, by decide⟩

/-- When the permission-link insert loop runs to completion it leaves
`roles` and `permissions` untouched and appends exactly the given ids to
the role's link set, in order. -/
theorem insertRolePermissions_ok (roleId : Nat) (fail : Nat → Bool) :
    ∀ (rest : List Nat) (i : Nat) (db db' : DB),
      insertRolePermissions roleId fail db rest i = (db', none) →
      db'.roles = db.roles ∧ db'.permissions = db.permissions ∧
      rolePermissionIds db' roleId = rolePermissionIds db roleId ++ rest := by
  intro rest
  induction rest with
  | nil =>
    intro i db db' h
    simp only [insertRolePermissions, Prod.mk.injEq] at h
    rw [← h.1]
    exact ⟨rfl, rfl, by simp⟩
  | cons a t ih =>
    intro i db db' h
    simp only [insertRolePermissions] at h
    cases hf : fail i with
    | true => rw [hf] at h; simp at h
    | false =>
      rw [hf] at h
      cases hex : permissionIdExists db a with
      | false => rw [hex] at h; simp at h
      | true =>
        rw [hex] at h
        cases hdup : db.role_permissions.any
            (fun rp => rp.role_id == roleId && rp.permission_id == a) with
        | true => rw [hdup] at h; simp at h
        | false =>
          rw [hdup] at h
          simp only [Bool.not_true, Bool.false_eq_true, if_false,
            Bool.not_false, if_true] at h
          obtain ⟨h1, h2, h3⟩ := ih (i + 1) _ db' h
          refine ⟨h1, h2, ?_⟩
          rw [h3]
          have hstep : rolePermissionIds
              { db with role_permissions := db.role_permissions ++
                  [{ role_id := roleId, permission_id := a }] } roleId =
              rolePermissionIds db roleId ++ [a] := by
            simp [rolePermissionIds, List.filter_append]
          rw [hstep, List.append_assoc]
          rfl

/-- With no injected fault, the insert loop fails whenever one of the
requested permission ids is missing from the catalog (the
`role_permissions.permission_id` FK). -/
theorem insertRolePermissions_fk (roleId : Nat) :
    ∀ (rest : List Nat) (i : Nat) (db : DB),
      (∃ pid ∈ rest, permissionIdExists db pid = false) →
      (insertRolePermissions roleId (fun _ => false) db rest i).2.isSome = true := by
  intro rest
  induction rest with
  | nil =>
    rintro i db ⟨pid, hm, _⟩
    cases hm
  | cons a t ih =>
    rintro i db ⟨pid, hm, hinv⟩
    simp only [insertRolePermissions]
    cases hex : permissionIdExists db a with
    | false => simp
    | true =>
      rcases List.mem_cons.mp hm with rfl | hm'
      · rw [hex] at hinv
        cases hinv
      · cases hdup : db.role_permissions.any
            (fun rp => rp.role_id == roleId && rp.permission_id == a) with
        | true => simp [hdup]
        | false =>
          simp only [Bool.not_true, Bool.false_eq_true, if_false,
            Bool.not_false, if_true, hdup]
          exact ih (i + 1) _ ⟨pid, hm', hinv⟩

/-- C4: `updateRole`'s permission replacement is atomic.  For every store,
role, payload and injected failure point (any insert step may be made to
fail): if the transaction reports an error the caller's store is exactly
the original one — the role's links included — and on success the role's
link set is exactly the requested list, never a mixture. -/
theorem updateRole_atomic (db : DB) (roleId : Nat) (dn : String)
    (descr : Option String) (perms : List Nat) (fail : Nat → Bool) :
    ((updateRoleModel db roleId dn descr perms fail).2.isSome = true →
      (updateRoleModel db roleId dn descr perms fail).1 = db) ∧
    ((updateRoleModel db roleId dn descr perms fail).2 = none →
      rolePermissionIds (updateRoleModel db roleId dn descr perms fail).1 roleId =
        perms) := by
  cases hcb : updateRoleCallback roleId dn descr perms fail db with
  | mk db' e =>
    cases e with
    | some err =>
      have hres : updateRoleModel db roleId dn descr perms fail = (db, some err) := by
        simp [updateRoleModel, txRun, hcb]
      rw [hres]
      exact ⟨fun _ => rfl, fun h => Option.noConfusion h⟩
    | none =>
      have hres : updateRoleModel db roleId dn descr perms fail = (db', none) := by
        simp [updateRoleModel, txRun, hcb]
      rw [hres]
      refine ⟨fun h => absurd h (by simp), fun _ => ?_⟩
      unfold updateRoleCallback at hcb
      cases hfind : db.roles.find? (fun r => r.id == roleId) with
      | none => rw [hfind] at hcb; simp at hcb
      | some r =>
        rw [hfind] at hcb
        obtain ⟨_, _, hids⟩ := insertRolePermissions_ok roleId fail perms 0 _ db' hcb
        rw [hids]
        have hz : rolePermissionIds
            (rolePermsDeleted (roleRowUpdated db roleId dn descr) roleId) roleId =
            [] := by
          simp [rolePermissionIds, rolePermsDeleted, filter_not_filter]
        rw [hz]
        exact List.nil_append perms

/-- Witness for C4: a failure injected at the second insert step (a
mid-insert interruption) leaves `dbRoleUpd` — role 1's link set `[7]`
included — exactly as it was. -/
theorem updateRole_atomic_witness :
    (updateRoleModel dbRoleUpd 1 "Auditor v2" none [7, 8] (fun i => i == 1)).1 =
      dbRoleUpd :=
  (updateRole_atomic dbRoleUpd 1 "Auditor v2" none [7, 8] (fun i => i == 1)).1
    (by decide)

/-- Counterexample to C5 as stated: `dbCatalogOne`'s catalog holds only
permission 1, yet `createRole` with `permissionIds = [1, 999]` does not
silently drop 999 and create the role — the FK violation rolls the whole
transaction back, so the operation fails and no role exists afterwards. -/
theorem createRole_invalid_ids_cex :
    createRoleModel dbCatalogOne "auditor" "Auditor" none [1, 999] =
      (dbCatalogOne, some (.dbError "role_permissions_permission_id_fkey")) ∧
    dbCatalogOne.roles = [] := by
  refine ⟨by decide, by decide⟩

/-- C5 (amended): invalid permission ids are not ignored — if any id in
`permissionIds` is missing from the catalog, `createRole` fails and the
transaction rolls back (no role, no links); on success the new role's
link set is exactly the requested list.  (`hfresh`: no stale links under
the fresh SERIAL id, guaranteed by the FK in a real store.) -/
theorem createRole_invalid_ids (db : DB) (name dn : String)
    (descr : Option String) (perms : List Nat)
    (hfresh : rolePermissionIds db db.nextRoleId = []) :
    ((∃ pid ∈ perms, permissionIdExists db pid = false) →
      (createRoleModel db name dn descr perms).1 = db ∧
      (createRoleModel db name dn descr perms).2.isSome = true) ∧
    ((createRoleModel db name dn descr perms).2 = none →
      (createRoleModel db name dn descr perms).1.roles =
        db.roles ++ [{ id := db.nextRoleId, name := name, display_name := dn,
                       description := descr, is_system := false }] ∧
      rolePermissionIds (createRoleModel db name dn descr perms).1
        db.nextRoleId = perms) := by
  cases hcb : createRoleCallback name dn descr perms db with
  | mk db' e =>
    cases e with
    | some err =>
      have hres : createRoleModel db name dn descr perms = (db, some err) := by
        simp [createRoleModel, txRun, hcb]
      rw [hres]
      exact ⟨fun _ => ⟨rfl, rfl⟩, fun h => Option.noConfusion h⟩
    | none =>
      have hres : createRoleModel db name dn descr perms = (db', none) := by
        simp [createRoleModel, txRun, hcb]
      rw [hres]
      unfold createRoleCallback at hcb
      cases hdup : db.roles.any (fun r => r.name == name) with
      | true => rw [hdup] at hcb; simp at hcb
      | false =>
        rw [hdup] at hcb
        simp only [Bool.false_eq_true, if_false] at hcb
        obtain ⟨hroles, hperms, hids⟩ :=
          insertRolePermissions_ok db.nextRoleId (fun _ => false) perms 0 _ db' hcb
        constructor
        · rintro ⟨pid, hm, hinv⟩
          exfalso
          have hfail := insertRolePermissions_fk db.nextRoleId perms 0
            (roleRowInserted db name dn descr) ⟨pid, hm, hinv⟩
          rw [hcb] at hfail
          simp at hfail
        · intro _
          refine ⟨by rw [hroles]; rfl, ?_⟩
          rw [hids]
          have hr1 : rolePermissionIds (roleRowInserted db name dn descr)
              db.nextRoleId = rolePermissionIds db db.nextRoleId := rfl
          rw [hr1, hfresh]
          exact List.nil_append perms

/-- Witness for the amended C5: at `dbCatalogOne` with `[1, 999]` the
call fails and returns the store unchanged. -/
theorem createRole_invalid_ids_witness :
    (createRoleModel dbCatalogOne "auditor" "Auditor" none [1, 999]).1 =
      dbCatalogOne ∧
    (createRoleModel dbCatalogOne "auditor" "Auditor" none [1, 999]).2.isSome =
      true :=
  (createRole_invalid_ids dbCatalogOne "auditor" "Auditor" none [1, 999]
    (by decide)).1 ⟨999, by decide, by decide⟩

end TicketSystem
